import Mathlib

/-!
Verification of the real-estate feasibility calculation engine
(`real_estate_webapp.py`), shallowly embedded over exact rational
arithmetic (`ℚ` in place of Python floats).  Every definition mirrors
the corresponding Python code; spec-level closed forms used for
comparison are named separately.
-/

namespace RealEstate

/-- The immutable input set of one projection run (`ProjectionInput` in the
spec; the parameter list of `generate_cash_flow_projection`). -/
structure ProjectionInput where
  property_price : ℚ
  down_payment_pct : ℚ
  loan_term_years : ℤ
  interest_rate : ℚ
  monthly_rent : ℚ
  monthly_expenses : ℚ
  vacancy_rate : ℚ
  rent_increase_rate : ℚ
  holding_period : ℕ
  appreciation_rate : ℚ
  selling_costs_pct : ℚ
deriving Repr

/-- Monthly mortgage payment, mirroring lines 124-133 of
`generate_cash_flow_projection`: the amortizing-payment formula when the
monthly rate is positive, straight division for a zero rate, and 0 when
there is no positive loan amount or loan term. -/
def monthlyPaymentCalc (loan_amount : ℚ) (interest_rate : ℚ) (loan_term_years : ℤ) : ℚ :=
  if loan_amount > 0 ∧ loan_term_years > 0 then
    let monthly_rate := interest_rate / 100 / 12
    let num_payments : ℤ := loan_term_years * 12
    if monthly_rate > 0 then
      loan_amount * (monthly_rate * (1 + monthly_rate) ^ num_payments.toNat) /
        ((1 + monthly_rate) ^ num_payments.toNat - 1)
    else
      loan_amount / (num_payments : ℚ)
  else 0

/-- Remaining loan balance at sale, mirroring lines 149-157 of
`generate_cash_flow_projection`: the annuity present value when payments
remain and the monthly rate is positive, and 0 in every other case
(including a zero monthly rate with payments remaining). -/
def loanBalanceAtSale (loan_amount monthly_payment monthly_rate : ℚ)
    (loan_term_years : ℤ) (year : ℕ) : ℚ :=
  if loan_amount > 0 ∧ loan_term_years > 0 then
    let payments_made : ℤ := (year : ℤ) * 12
    let remaining_payments : ℤ := loan_term_years * 12 - payments_made
    if remaining_payments > 0 ∧ monthly_rate > 0 then
      monthly_payment * ((1 - (1 + monthly_rate) ^ (-remaining_payments)) / monthly_rate)
    else 0
  else 0

/-- One summand stream of `sum(cf / (1 + rate) ** i for i, cf in
enumerate(cash_flows))`, with the running index made explicit. -/
def npvTerms (rate : ℚ) : List ℚ → ℕ → ℚ
  | [], _ => 0
  | cf :: rest, i => cf / (1 + rate) ^ i + npvTerms rate rest (i + 1)

/-- `npv` of `_calculate_irr_manual` (line 59): Σ cf_i / (1+rate)^i. -/
def npvAt (rate : ℚ) (cash_flows : List ℚ) : ℚ := npvTerms rate cash_flows 0

/-- Summand stream of the derivative sum at line 60. -/
def npvDerivTerms (rate : ℚ) : List ℚ → ℕ → ℚ
  | [], _ => 0
  | cf :: rest, i => -(i : ℚ) * cf / (1 + rate) ^ (i + 1) + npvDerivTerms rate rest (i + 1)

/-- `npv_derivative` of `_calculate_irr_manual` (line 60):
Σ −i·cf_i / (1+rate)^(i+1). -/
def npvDeriv (rate : ℚ) (cash_flows : List ℚ) : ℚ := npvDerivTerms rate cash_flows 0

/-- The Newton-Raphson loop of `_calculate_irr_manual` (lines 58-70), with
the iteration count as fuel: at each step compute npv and its derivative,
return the rate once `|npv| < 0.01`, stop returning the current rate when
the derivative is 0, otherwise update `rate ← rate − npv/npv'`; when the
fuel runs out the current rate is returned (line 70 `return rate`). -/
def irrLoop (cash_flows : List ℚ) : ℕ → ℚ → ℚ
  | 0, rate => rate
  | n + 1, rate =>
    let npv := npvAt rate cash_flows
    let d := npvDeriv rate cash_flows
    if |npv| < 1 / 100 then rate
    else if d = 0 then rate
    else irrLoop cash_flows n (rate - npv / d)

/-- `_calculate_irr_manual(cash_flows)`: 1000 Newton iterations from the
initial rate 0.1. -/
def calculate_irr_manual (cash_flows : List ℚ) : ℚ := irrLoop cash_flows 1000 (1 / 10)

/-- `calculate_irr(cash_flows)` (lines 43-52): `np.irr` is absent from
modern numpy, so the `AttributeError` branch always selects
`_calculate_irr_manual`, whose value is multiplied by 100.  The source
also wraps the call in a bare `except` returning 0.0; exact rational
arithmetic raises no exception, so that branch is unreachable in this
model.  Theorems about non-convergence therefore use inputs whose float
execution also stays in range (bounded iterates, no overflow), where the
model and the source take the same path. -/
def calculate_irr (cash_flows : List ℚ) : ℚ := calculate_irr_manual cash_flows * 100

/-- A cash-flow series on which the Newton-Raphson iteration has an exact
period-2 cycle through the initial rate: the update sends rate 1/10 to
−1/2 and −1/2 back to 1/10, with |npv| in the thousands and a nonzero
derivative at both points.  The cycle is superattracting (the npv second
derivative vanishes at rate −1/2, so the cycle's multiplier is 0), hence
the float execution of the source locks onto the same bounded cycle and
completes all 1000 iterations without any arithmetic error. -/
def irrCycleFlows : List ℚ := [-80840, 119532, -62646, 10681]

/-- The unguarded Newton-Raphson update of line 68:
`rate ← rate − npv/npv'`. -/
def newtonStep (cash_flows : List ℚ) (rate : ℚ) : ℚ :=
  rate - npvAt rate cash_flows / npvDeriv rate cash_flows

/-- `n`-fold unguarded Newton-Raphson iteration from `rate`; when none of
the loop's stopping guards ever fires, `irrLoop` computes exactly this. -/
def newtonIterate (cash_flows : List ℚ) : ℕ → ℚ → ℚ
  | 0, rate => rate
  | n + 1, rate => newtonIterate cash_flows n (newtonStep cash_flows rate)

/-- `calculate_npv(discount_rate, cash_flows)` (lines 72-79): the manual
sum Σ cf_i/(1+rate)^i at rate = discount_rate/100. -/
def calculate_npv (discount_rate : ℚ) (cash_flows : List ℚ) : ℚ :=
  npvAt (discount_rate / 100) cash_flows

/-- `calculate_gross_yield` (lines 81-85). -/
def calculate_gross_yield (property_price annual_rent : ℚ) : ℚ :=
  if property_price > 0 then annual_rent / property_price * 100 else 0

/-- `calculate_net_yield` (lines 87-93): `(annual_rent − annual_costs) /
property_price · 100` behind the same positive-price guard as the gross
yield, else 0. -/
def calculate_net_yield (property_price annual_rent annual_costs : ℚ) : ℚ :=
  if property_price > 0 then (annual_rent - annual_costs) / property_price * 100 else 0

/-- `calculate_cap_rate` (lines 95-99). -/
def calculate_cap_rate (property_price noi : ℚ) : ℚ :=
  if property_price > 0 then noi / property_price * 100 else 0

/-- `calculate_cash_on_cash` (lines 101-106). -/
def calculate_cash_on_cash (annual_cash_flow initial_investment : ℚ) : ℚ :=
  if initial_investment > 0 then annual_cash_flow / initial_investment * 100 else 0

/-- One row of the `years_data` table built at lines 166-173. -/
structure YearRecord where
  year : ℕ
  rentalIncome : ℚ
  expenses : ℚ
  mortgage : ℚ
  cashFlow : ℚ
  cumulativeCashFlow : ℚ
deriving Repr, DecidableEq

/-- Loan amount of a projection input (line 122). -/
def loanAmountOf (inp : ProjectionInput) : ℚ :=
  inp.property_price - inp.property_price * (inp.down_payment_pct / 100)

/-- Monthly rate of a projection input (line 125). -/
def monthlyRateOf (inp : ProjectionInput) : ℚ := inp.interest_rate / 100 / 12

/-- Monthly payment of a projection input (lines 124-133). -/
def monthlyPaymentOf (inp : ProjectionInput) : ℚ :=
  monthlyPaymentCalc (loanAmountOf inp) inp.interest_rate inp.loan_term_years

/-- Operating cash flow of one projection year (lines 140-143):
effective rent net of vacancy, minus annual expenses, minus annual debt
service. -/
def yearOperatingCF (inp : ProjectionInput) (monthly_payment current_rent : ℚ) : ℚ :=
  current_rent * (1 - inp.vacancy_rate / 100) * 12
    - inp.monthly_expenses * 12 - monthly_payment * 12

/-- Net sale proceeds added in the final projection year (lines 145-159):
appreciated value minus selling costs minus the remaining loan balance. -/
def netSaleProceeds (inp : ProjectionInput)
    (loan_amount monthly_payment monthly_rate : ℚ) (year : ℕ) : ℚ :=
  let current_value := inp.property_price * (1 + inp.appreciation_rate / 100) ^ year
  let selling_costs := current_value * (inp.selling_costs_pct / 100)
  let loan_balance :=
    loanBalanceAtSale loan_amount monthly_payment monthly_rate inp.loan_term_years year
  current_value - selling_costs - loan_balance

/-- Total cash flow of one projection year (lines 145-162): operating cash
flow, plus net sale proceeds when `year` is the holding period. -/
def yearTotalCF (inp : ProjectionInput)
    (loan_amount monthly_payment monthly_rate current_rent : ℚ) (year : ℕ) : ℚ :=
  let operating := yearOperatingCF inp monthly_payment current_rent
  if year = inp.holding_period then
    operating + netSaleProceeds inp loan_amount monthly_payment monthly_rate year
  else operating

/-- The projection loop of lines 139-175, with the remaining iteration
count `count` explicit: `year` and `current_rent` evolve exactly as the
Python loop variables do, `acc` carries `sum(cash_flows)` over the flows
already appended (so the recorded cumulative figure is `acc + cf`), and
the rent escalates after each year is recorded. -/
def projRows (inp : ProjectionInput) (loan_amount monthly_payment monthly_rate : ℚ) :
    ℕ → ℕ → ℚ → ℚ → List ℚ × List YearRecord
  | _, 0, _, _ => ([], [])
  | year, c + 1, current_rent, acc =>
    let cf := yearTotalCF inp loan_amount monthly_payment monthly_rate current_rent year
    let row : YearRecord :=
      { year := year
        rentalIncome := current_rent * (1 - inp.vacancy_rate / 100) * 12
        expenses := inp.monthly_expenses * 12
        mortgage := monthly_payment * 12
        cashFlow := cf
        cumulativeCashFlow := acc + cf }
    let rest := projRows inp loan_amount monthly_payment monthly_rate (year + 1) c
      (current_rent * (1 + inp.rent_increase_rate / 100)) (acc + cf)
    (cf :: rest.1, row :: rest.2)

/-- `generate_cash_flow_projection` (lines 108-178): the cash-flow series
starting with the negative down payment, together with the per-year
records. -/
def generate_cash_flow_projection (inp : ProjectionInput) : List ℚ × List YearRecord :=
  let down_payment := inp.property_price * (inp.down_payment_pct / 100)
  let loan_amount := inp.property_price - down_payment
  let monthly_rate := inp.interest_rate / 100 / 12
  let monthly_payment := monthlyPaymentCalc loan_amount inp.interest_rate inp.loan_term_years
  let body := projRows inp loan_amount monthly_payment monthly_rate
    1 inp.holding_period inp.monthly_rent (-down_payment)
  (-down_payment :: body.1, body.2)

/-- `AnalysisResult` of one `comprehensive_analysis` run (lines 216-227);
the tabular view (`cash_flow_table`) is carried as the record list. -/
structure AnalysisResult where
  irr : ℚ
  npv : ℚ
  gross_yield : ℚ
  net_yield : ℚ
  cap_rate : ℚ
  cash_on_cash : ℚ
  cash_flows : List ℚ
  year_records : List YearRecord
  initial_investment : ℚ
  total_return : ℚ
deriving Repr

/-- `comprehensive_analysis` (lines 180-227). -/
def comprehensive_analysis (inp : ProjectionInput) (discount_rate : ℚ) : AnalysisResult :=
  let proj := generate_cash_flow_projection inp
  let cash_flows := proj.1
  let irr := calculate_irr cash_flows
  let npv := calculate_npv discount_rate cash_flows
  let annual_rent := inp.monthly_rent * 12
  let annual_costs := inp.monthly_expenses * 12
  let gross_yield := calculate_gross_yield inp.property_price annual_rent
  let net_yield := calculate_net_yield inp.property_price annual_rent annual_costs
  let noi := annual_rent * (1 - inp.vacancy_rate / 100) - annual_costs
  let cap_rate := calculate_cap_rate inp.property_price noi
  let initial_investment := inp.property_price * (inp.down_payment_pct / 100)
  let first_year_cash_flow := cash_flows.getD 1 0
  let cash_on_cash := calculate_cash_on_cash first_year_cash_flow initial_investment
  { irr := irr
    npv := npv
    gross_yield := gross_yield
    net_yield := net_yield
    cap_rate := cap_rate
    cash_on_cash := cash_on_cash
    cash_flows := cash_flows
    year_records := proj.2
    initial_investment := initial_investment
    total_return := cash_flows.sum }

/-- One scenario evaluation from the Scenarios tab (lines 1071-1099):
the interest delta is additive, the vacancy and rent deltas are
multiplicative, and the perturbed input runs through the projection, NPV
and IRR pipeline; the result is the `(npv, irr)` pair stored for the
scenario. -/
def scenarioRun (inp : ProjectionInput)
    (interest_delta occupancy_delta rent_delta discount_rate : ℚ) : ℚ × ℚ :=
  let test_interest := inp.interest_rate + interest_delta
  let test_vacancy := inp.vacancy_rate * (1 + occupancy_delta / 100)
  let test_rent := inp.monthly_rent * (1 + rent_delta / 100)
  let perturbed : ProjectionInput :=
    { inp with
      interest_rate := test_interest
      vacancy_rate := test_vacancy
      monthly_rent := test_rent }
  let test_cf := (generate_cash_flow_projection perturbed).1
  (calculate_npv discount_rate test_cf, calculate_irr test_cf)

/-- Probability-weighted expected NPV (lines 1317-1323): each probability
is given in percent and divided by 100 before weighting. -/
def expected_npv (worst_npv base_npv best_npv prob_worst prob_base prob_best : ℚ) : ℚ :=
  worst_npv * (prob_worst / 100) + base_npv * (prob_base / 100) + best_npv * (prob_best / 100)

/-- The probability-sum validation test of line 1304: `true` exactly when
the error message is shown. -/
def prob_validation_error (prob_worst prob_base prob_best : ℚ) : Bool :=
  decide (|prob_worst + prob_base + prob_best - 100| > 1 / 100)

/-- The risk-computation gate of lines 1313-1323: the expected NPV is
computed only when the probabilities pass the tolerance test, with the
caller's probabilities used as given; otherwise the run stops with a
validation failure (`none`). -/
def run_risk_assessment (prob_worst prob_base prob_best worst_npv base_npv best_npv : ℚ) :
    Option ℚ :=
  if |prob_worst + prob_base + prob_best - 100| ≤ 1 / 100 then
    some (expected_npv worst_npv base_npv best_npv prob_worst prob_base prob_best)
  else none

/-- Rent in effect during projection year `k` (for `k ≥ 1`): the input
monthly rent escalated `k − 1` times, since escalation happens only after
each year's record is produced (line 175). -/
def escalatedRent (inp : ProjectionInput) (k : ℕ) : ℚ :=
  inp.monthly_rent * (1 + inp.rent_increase_rate / 100) ^ (k - 1)

/-- Closed form of the annual net (operating) cash flow of projection
year `k`. -/
def annualNetCF (inp : ProjectionInput) (k : ℕ) : ℚ :=
  yearOperatingCF inp (monthlyPaymentOf inp) (escalatedRent inp k)

/-- Closed form of the net sale proceeds added at the end of the holding
period. -/
def saleProceedsAtEnd (inp : ProjectionInput) : ℚ :=
  netSaleProceeds inp (loanAmountOf inp) (monthlyPaymentOf inp) (monthlyRateOf inp)
    inp.holding_period

/-- A concrete projection input used to instantiate theorems with
hypotheses: a 1,000,000 property, 20% down, 30-year zero-interest loan,
rent 10 growing 10% a year, held 3 years. -/
def sampleInput : ProjectionInput :=
  { property_price := 1000000
    down_payment_pct := 20
    loan_term_years := 30
    interest_rate := 0
    monthly_rent := 10
    monthly_expenses := 1
    vacancy_rate := 0
    rent_increase_rate := 10
    holding_period := 3
    appreciation_rate := 0
    selling_costs_pct := 0 }

/-! ### Loop lemmas for the projection -/

/-- The loop appends exactly one cash flow per remaining year. -/
theorem projRows_fst_length (inp : ProjectionInput) (la mp mr : ℚ) :
    ∀ (count year : ℕ) (rent acc : ℚ),
      (projRows inp la mp mr year count rent acc).1.length = count := by
  intro count
  induction count with
  | zero => intro year rent acc; rfl
  | succ c ih => intro year rent acc; simp [projRows, ih]

/-- The loop appends exactly one year record per remaining year. -/
theorem projRows_snd_length (inp : ProjectionInput) (la mp mr : ℚ) :
    ∀ (count year : ℕ) (rent acc : ℚ),
      (projRows inp la mp mr year count rent acc).2.length = count := by
  intro count
  induction count with
  | zero => intro year rent acc; rfl
  | succ c ih => intro year rent acc; simp [projRows, ih]

/-- The `i`-th cash flow produced by the loop started at `year` with rent
`rent` is the total cash flow of calendar year `year + i` at the rent
escalated `i` times. -/
theorem projRows_fst_getElem (inp : ProjectionInput) (la mp mr : ℚ) :
    ∀ (count i year : ℕ) (rent acc : ℚ), i < count →
      (projRows inp la mp mr year count rent acc).1[i]? =
        some (yearTotalCF inp la mp mr
          (rent * (1 + inp.rent_increase_rate / 100) ^ i) (year + i)) := by
  intro count
  induction count with
  | zero => intro i year rent acc h; omega
  | succ c ih =>
    intro i year rent acc h
    match i with
    | 0 => simp [projRows]
    | j + 1 =>
      have hj : j < c := by omega
      simp only [projRows, List.getElem?_cons_succ]
      rw [ih j (year + 1) (rent * (1 + inp.rent_increase_rate / 100)) _ hj]
      have h1 : rent * (1 + inp.rent_increase_rate / 100) *
          (1 + inp.rent_increase_rate / 100) ^ j =
          rent * (1 + inp.rent_increase_rate / 100) ^ (j + 1) := by ring
      have h2 : year + 1 + j = year + (j + 1) := by omega
      rw [h1, h2]

/-- The `i`-th year record produced by the loop: its year, rent income,
cost fields, cash flow and cumulative figure in closed form; the
cumulative figure is the accumulator plus the sum of the first `i + 1`
flows the loop produces. -/
theorem projRows_snd_getElem (inp : ProjectionInput) (la mp mr : ℚ) :
    ∀ (count i year : ℕ) (rent acc : ℚ), i < count →
      (projRows inp la mp mr year count rent acc).2[i]? =
        some { year := year + i
               rentalIncome := rent * (1 + inp.rent_increase_rate / 100) ^ i *
                 (1 - inp.vacancy_rate / 100) * 12
               expenses := inp.monthly_expenses * 12
               mortgage := mp * 12
               cashFlow := yearTotalCF inp la mp mr
                 (rent * (1 + inp.rent_increase_rate / 100) ^ i) (year + i)
               cumulativeCashFlow := acc +
                 (((projRows inp la mp mr year count rent acc).1.take (i + 1)).sum) } := by
  intro count
  induction count with
  | zero => intro i year rent acc h; omega
  | succ c ih =>
    intro i year rent acc h
    match i with
    | 0 => simp [projRows]
    | j + 1 =>
      have hj : j < c := by omega
      simp only [projRows, List.getElem?_cons_succ]
      rw [ih j (year + 1) (rent * (1 + inp.rent_increase_rate / 100)) _ hj]
      have h1 : rent * (1 + inp.rent_increase_rate / 100) *
          (1 + inp.rent_increase_rate / 100) ^ j =
          rent * (1 + inp.rent_increase_rate / 100) ^ (j + 1) := by ring
      have h2 : year + 1 + j = year + (j + 1) := by omega
      rw [h1, h2]
      simp [List.take_succ_cons, add_assoc]

/-! ### Newton-Raphson lemmas -/

/-- One-step equation of the pure Newton iteration. -/
theorem newtonIterate_succ (cash_flows : List ℚ) (n : ℕ) (r : ℚ) :
    newtonIterate cash_flows (n + 1) r = newtonIterate cash_flows n (newtonStep cash_flows r) :=
  rfl

/-- NPV of the cycle series at rate 1/10. -/
theorem npvAt_cycle0 : npvAt (1 / 10) irrCycleFlows = -1926720 / 121 := by
  norm_num [npvAt, npvTerms, irrCycleFlows]

/-- NPV derivative of the cycle series at rate 1/10. -/
theorem npvDeriv_cycle0 : npvDeriv (1 / 10) irrCycleFlows = -3211200 / 121 := by
  norm_num [npvDeriv, npvDerivTerms, irrCycleFlows]

/-- NPV of the cycle series at rate −1/2. -/
theorem npvAt_cycle1 : npvAt (-(1 / 2)) irrCycleFlows = -6912 := by
  norm_num [npvAt, npvTerms, irrCycleFlows]

/-- NPV derivative of the cycle series at rate −1/2. -/
theorem npvDeriv_cycle1 : npvDeriv (-(1 / 2)) irrCycleFlows = 11520 := by
  norm_num [npvDeriv, npvDerivTerms, irrCycleFlows]

/-- The Newton update sends rate 1/10 to −1/2 on the cycle series. -/
theorem newtonStep_cycle0 : newtonStep irrCycleFlows (1 / 10) = -(1 / 2) := by
  rw [newtonStep, npvAt_cycle0, npvDeriv_cycle0]
  norm_num

/-- The Newton update sends rate −1/2 back to 1/10 on the cycle series. -/
theorem newtonStep_cycle1 : newtonStep irrCycleFlows (-(1 / 2)) = 1 / 10 := by
  rw [newtonStep, npvAt_cycle1, npvDeriv_cycle1]
  norm_num

/-- At both cycle points neither stopping guard of the Newton loop can
fire: |npv| is in the thousands and the derivative is nonzero. -/
theorem cycle_conditions :
    (¬|npvAt (1 / 10) irrCycleFlows| < 1 / 100 ∧ npvDeriv (1 / 10) irrCycleFlows ≠ 0) ∧
    (¬|npvAt (-(1 / 2)) irrCycleFlows| < 1 / 100 ∧
      npvDeriv (-(1 / 2)) irrCycleFlows ≠ 0) := by
  refine ⟨⟨?_, ?_⟩, ⟨?_, ?_⟩⟩
  · rw [npvAt_cycle0, show (-1926720 / 121 : ℚ) = -(1926720 / 121) by norm_num, abs_neg,
      abs_of_pos (by norm_num : (0 : ℚ) < 1926720 / 121)]
    norm_num
  · rw [npvDeriv_cycle0]
    norm_num
  · rw [npvAt_cycle1, show (-6912 : ℚ) = -(6912 : ℚ) by norm_num, abs_neg,
      abs_of_pos (by norm_num : (0 : ℚ) < 6912)]
    norm_num
  · rw [npvDeriv_cycle1]
    norm_num

/-- Every pure Newton iterate from a cycle point stays on the two-point
cycle {1/10, −1/2}. -/
theorem newtonIterate_cycle (n : ℕ) :
    ∀ r : ℚ, r = 1 / 10 ∨ r = -(1 / 2) →
      newtonIterate irrCycleFlows n r = 1 / 10 ∨
      newtonIterate irrCycleFlows n r = -(1 / 2) := by
  induction n with
  | zero => intro r h; exact h
  | succ m ih =>
    intro r h
    rcases h with rfl | rfl
    · exact ih _ (Or.inr newtonStep_cycle0)
    · exact ih _ (Or.inl newtonStep_cycle1)

/-- Neither stopping guard ever fires along the Newton run on the cycle
series started at 1/10. -/
theorem cycle_iterate_conditions (k : ℕ) :
    ¬|npvAt (newtonIterate irrCycleFlows k (1 / 10)) irrCycleFlows| < 1 / 100 ∧
    npvDeriv (newtonIterate irrCycleFlows k (1 / 10)) irrCycleFlows ≠ 0 := by
  rcases newtonIterate_cycle k (1 / 10) (Or.inl rfl) with h | h <;> rw [h]
  · exact cycle_conditions.1
  · exact cycle_conditions.2

/-- After any even number of Newton iterations from 1/10, the rate is
back at 1/10 exactly. -/
theorem newtonIterate_cycle_even (n : ℕ) :
    newtonIterate irrCycleFlows (2 * n) (1 / 10) = 1 / 10 := by
  induction n with
  | zero => rfl
  | succ m ih =>
    have h2 : 2 * (m + 1) = 2 * m + 1 + 1 := by ring
    rw [h2, newtonIterate_succ, newtonStep_cycle0, newtonIterate_succ, newtonStep_cycle1]
    exact ih

/-- When no stopping guard ever fires during the first `n` Newton
iterates, the guarded loop computes exactly the pure `n`-fold Newton
iteration. -/
theorem irrLoop_eq_newtonIterate (cash_flows : List ℚ) :
    ∀ (n : ℕ) (r : ℚ),
      (∀ k, k < n → ¬|npvAt (newtonIterate cash_flows k r) cash_flows| < 1 / 100 ∧
        npvDeriv (newtonIterate cash_flows k r) cash_flows ≠ 0) →
      irrLoop cash_flows n r = newtonIterate cash_flows n r := by
  intro n
  induction n with
  | zero => intro r _; rfl
  | succ m ih =>
    intro r h
    have h0 : ¬|npvAt r cash_flows| < 1 / 100 ∧ npvDeriv r cash_flows ≠ 0 :=
      h 0 (Nat.succ_pos m)
    simp only [irrLoop]
    rw [if_neg h0.1, if_neg h0.2]
    exact ih (newtonStep cash_flows r) (fun k hk => h (k + 1) (by omega))

/-! ### Theorems -/

/-- Claim C1 (evaluation of the code at the failing input): for a
1,000,000 property with 20% down, a 30-year zero-interest loan and a
10-year holding period, 240 payments remain at sale, yet the code's loan
balance is 0, while the spec's value `monthlyPayment · remainingPayments`
is 1,600,000/3 ≠ 0.  The code's `else` branch at lines 152-155 returns 0
whenever `monthly_rate` is not positive, conflating the zero-rate case
with the retired-loan case, so a zero-interest loan not yet retired at
sale is treated as having no balance. -/
theorem c1_zero_rate_loan_balance_bug :
    loanBalanceAtSale 800000 (monthlyPaymentCalc 800000 0 30) 0 30 10 = 0 ∧
    monthlyPaymentCalc 800000 0 30 * 240 = 1600000 / 3 ∧
    (1600000 / 3 : ℚ) ≠ 0 := by
  refine ⟨by norm_num [loanBalanceAtSale], by norm_num [monthlyPaymentCalc], by norm_num⟩

/-- Claim C3 (counterexample): with Worst = −1,000,000, Base = 2,000,000,
Best = 5,000,000 and probabilities 25/50/25, the code's probability
weighting Σ npv_i · (p_i/100) evaluates to 2,000,000, which is not the
1,750,000 the spec asserts. -/
theorem c3_expected_npv_counterexample :
    expected_npv (-1000000) 2000000 5000000 25 50 25 = 2000000 ∧
    (2000000 : ℚ) ≠ 1750000 := by
  refine ⟨by norm_num [expected_npv], by norm_num⟩

/-- Claim C3 (amended): with Worst = −1,000,000, Base = 2,000,000,
Best = 5,000,000 and probabilities 25/50/25, the probability-weighted
expected NPV Σ npv_i · (p_i/100) equals exactly 2,000,000. -/
theorem c3_expected_npv_amended :
    expected_npv (-1000000) 2000000 5000000 25 50 25 = 2000000 := by
  norm_num [expected_npv]

/-- Claim C7: with a positive principal and term and a zero annual rate,
the monthly payment is exactly `principal / (termYears · 12)`; with a
non-positive principal or term the payment is 0 for every rate. -/
theorem c7_monthly_payment_zero_rate :
    (∀ (principal rate : ℚ) (term : ℤ), 0 < principal → 0 < term → rate = 0 →
      monthlyPaymentCalc principal rate term = principal / ((term * 12 : ℤ) : ℚ)) ∧
    (∀ (principal rate : ℚ) (term : ℤ), principal ≤ 0 ∨ term ≤ 0 →
      monthlyPaymentCalc principal rate term = 0) := by
  constructor
  · intro principal rate term hp ht hr
    subst hr
    rw [monthlyPaymentCalc, if_pos ⟨hp, ht⟩]
    norm_num
  · intro principal rate term h
    rw [monthlyPaymentCalc, if_neg]
    rcases h with h | h
    · exact fun hc => absurd hc.1 (not_lt.mpr h)
    · exact fun hc => absurd hc.2 (not_lt.mpr h)

/-- Claim C7 witness: the theorem applied to an 800,000 zero-interest
30-year loan and to a degenerate negative principal. -/
theorem c7_monthly_payment_zero_rate_witness :
    ((0 : ℚ) < 800000 ∧ (0 : ℤ) < 30 ∧
      monthlyPaymentCalc 800000 0 30 = 800000 / (((30 : ℤ) * 12 : ℤ) : ℚ)) ∧
    ((-1 : ℚ) ≤ 0 ∧ monthlyPaymentCalc (-1) 5 10 = 0) :=
  ⟨⟨by norm_num, by norm_num,
      c7_monthly_payment_zero_rate.1 800000 0 30 (by norm_num) (by norm_num) rfl⟩,
    ⟨by norm_num, c7_monthly_payment_zero_rate.2 (-1) 5 10 (Or.inl (by norm_num))⟩⟩

/-- Claim C10: the net rental yield is 0 whenever the property price is
non-positive (the same guard the code uses for the gross yield), and
`(annual_rent − annual_costs) / property_price · 100` when the price is
positive. -/
theorem c10_net_yield_guard :
    (∀ p r c : ℚ, p ≤ 0 → calculate_net_yield p r c = 0) ∧
    (∀ p r c : ℚ, 0 < p → calculate_net_yield p r c = (r - c) / p * 100) := by
  constructor
  · intro p r c h
    rw [calculate_net_yield, if_neg (not_lt.mpr h)]
  · intro p r c h
    rw [calculate_net_yield, if_pos h]

/-- Claim C10 witness: the theorem applied at price 0 (zero guard) and at
price 200 with rent 30 and costs 10. -/
theorem c10_net_yield_guard_witness :
    ((0 : ℚ) ≤ 0 ∧ calculate_net_yield 0 30 10 = 0) ∧
    ((0 : ℚ) < 200 ∧ calculate_net_yield 200 30 10 = (30 - 10) / 200 * 100) :=
  ⟨⟨le_refl 0, c10_net_yield_guard.1 0 30 10 (le_refl 0)⟩,
    ⟨by norm_num, c10_net_yield_guard.2 200 30 10 (by norm_num)⟩⟩

/-- Claim C8: a probability triple whose sum differs from 100 by more than
0.01 triggers the validation error and the risk computation is skipped
(`none`); the triple {25, 50, 24.5} is such a failure; and whenever the
computation does run, the expected NPV uses the caller's probabilities
exactly as given (no renormalization). -/
theorem c8_probability_validation :
    (∀ pw pb pbe w b bst : ℚ, |pw + pb + pbe - 100| > 1 / 100 →
      prob_validation_error pw pb pbe = true ∧
      run_risk_assessment pw pb pbe w b bst = none) ∧
    (prob_validation_error 25 50 (49 / 2) = true ∧
      run_risk_assessment 25 50 (49 / 2) 0 0 0 = none) ∧
    (∀ pw pb pbe w b bst : ℚ, |pw + pb + pbe - 100| ≤ 1 / 100 →
      run_risk_assessment pw pb pbe w b bst =
        some (w * (pw / 100) + b * (pb / 100) + bst * (pbe / 100))) := by
  have habs : (1 : ℚ) / 100 < |25 + 50 + 49 / 2 - 100| := by
    rw [show (25 : ℚ) + 50 + 49 / 2 - 100 = -(1 / 2) by norm_num, abs_neg,
      abs_of_pos (by norm_num : (0 : ℚ) < 1 / 2)]
    norm_num
  refine ⟨fun pw pb pbe w b bst h => ⟨?_, ?_⟩, ⟨?_, ?_⟩,
    fun pw pb pbe w b bst h => ?_⟩
  · simpa [prob_validation_error] using h
  · rw [run_risk_assessment, if_neg (not_le.mpr h)]
  · simpa [prob_validation_error] using habs
  · rw [run_risk_assessment, if_neg (not_le.mpr habs)]
  · rw [run_risk_assessment, if_pos h]
    rfl

/-- Claim C8 witness: the theorem applied to the failing triple
{25, 50, 24.5} and to the valid triple {25, 50, 25}. -/
theorem c8_probability_validation_witness :
    (|(25 : ℚ) + 50 + 49 / 2 - 100| > 1 / 100 ∧
      run_risk_assessment 25 50 (49 / 2) 1 2 3 = none) ∧
    (|(25 : ℚ) + 50 + 25 - 100| ≤ 1 / 100 ∧
      run_risk_assessment 25 50 25 (-1000000) 2000000 5000000 =
        some ((-1000000) * (25 / 100) + 2000000 * (50 / 100) + 5000000 * (25 / 100))) := by
  have habs : (1 : ℚ) / 100 < |25 + 50 + 49 / 2 - 100| := by
    rw [show (25 : ℚ) + 50 + 49 / 2 - 100 = -(1 / 2) by norm_num, abs_neg,
      abs_of_pos (by norm_num : (0 : ℚ) < 1 / 2)]
    norm_num
  exact ⟨⟨habs, (c8_probability_validation.1 25 50 (49 / 2) 1 2 3 habs).2⟩,
    ⟨by rw [show (25 : ℚ) + 50 + 25 - 100 = 0 by norm_num]; simp,
      c8_probability_validation.2.2 25 50 25 (-1000000) 2000000 5000000
        (by rw [show (25 : ℚ) + 50 + 25 - 100 = 0 by norm_num]; simp)⟩⟩

/-- Claim C4: the Base scenario of the Scenarios tab applies a zero
additive interest delta and zero multiplicative vacancy and rent deltas,
so the perturbed input coincides with the original and the scenario's NPV
and IRR equal those of the unperturbed comprehensive analysis exactly. -/
theorem c4_base_scenario_reproduces_analysis (inp : ProjectionInput) (discount_rate : ℚ) :
    scenarioRun inp 0 0 0 discount_rate =
      ((comprehensive_analysis inp discount_rate).npv,
        (comprehensive_analysis inp discount_rate).irr) := by
  have h : ({ inp with
      interest_rate := inp.interest_rate + 0
      vacancy_rate := inp.vacancy_rate * (1 + 0 / 100)
      monthly_rent := inp.monthly_rent * (1 + 0 / 100) } : ProjectionInput) = inp := by
    cases inp
    norm_num
  simp only [scenarioRun, h]
  rfl

/-- Claim C5: for a holding period N ≥ 1 the cash-flow series has length
N + 1; index 0 is the negative down payment; each index 1 ≤ k < N is the
annual net cash flow of year k; and index N is year N's net cash flow
plus the net sale proceeds (appreciated value minus selling costs minus
remaining loan balance). -/
theorem c5_cash_flow_series_shape (inp : ProjectionInput) (h : 1 ≤ inp.holding_period) :
    (generate_cash_flow_projection inp).1.length = inp.holding_period + 1 ∧
    (generate_cash_flow_projection inp).1[0]? =
      some (-(inp.property_price * (inp.down_payment_pct / 100))) ∧
    (∀ k, 1 ≤ k → k < inp.holding_period →
      (generate_cash_flow_projection inp).1[k]? = some (annualNetCF inp k)) ∧
    (generate_cash_flow_projection inp).1[inp.holding_period]? =
      some (annualNetCF inp inp.holding_period + saleProceedsAtEnd inp) := by
  refine ⟨?_, ?_, ?_, ?_⟩
  · simp [generate_cash_flow_projection, projRows_fst_length]
  · simp [generate_cash_flow_projection]
  · intro k hk1 hk2
    obtain ⟨j, rfl⟩ : ∃ j, k = j + 1 := ⟨k - 1, by omega⟩
    simp only [generate_cash_flow_projection, List.getElem?_cons_succ]
    rw [projRows_fst_getElem inp _ _ _ inp.holding_period j 1 inp.monthly_rent _ (by omega)]
    simp only [yearTotalCF]
    rw [if_neg (by omega : ¬1 + j = inp.holding_period)]
    simp [annualNetCF, escalatedRent, monthlyPaymentOf, loanAmountOf]
  · simp only [generate_cash_flow_projection, List.getElem?_cons]
    rw [if_neg (by omega : ¬inp.holding_period = 0)]
    rw [projRows_fst_getElem inp _ _ _ inp.holding_period (inp.holding_period - 1) 1
      inp.monthly_rent _ (by omega)]
    have h3 : 1 + (inp.holding_period - 1) = inp.holding_period := by omega
    rw [h3]
    simp only [yearTotalCF, if_true]
    simp [annualNetCF, escalatedRent, saleProceedsAtEnd, monthlyPaymentOf, loanAmountOf,
      monthlyRateOf]

/-- Claim C5 witness: the theorem applied to the sample 3-year input. -/
theorem c5_cash_flow_series_shape_witness :
    1 ≤ sampleInput.holding_period ∧
    ((generate_cash_flow_projection sampleInput).1.length = sampleInput.holding_period + 1 ∧
    (generate_cash_flow_projection sampleInput).1[0]? =
      some (-(sampleInput.property_price * (sampleInput.down_payment_pct / 100))) ∧
    (∀ k, 1 ≤ k → k < sampleInput.holding_period →
      (generate_cash_flow_projection sampleInput).1[k]? = some (annualNetCF sampleInput k)) ∧
    (generate_cash_flow_projection sampleInput).1[sampleInput.holding_period]? =
      some (annualNetCF sampleInput sampleInput.holding_period +
        saleProceedsAtEnd sampleInput)) :=
  ⟨by decide, c5_cash_flow_series_shape sampleInput (by decide)⟩

/-- Claim C6: year 1 of the projection uses the unescalated input rent,
and the rent in effect in year k is `monthly_rent · (1 +
rent_increase_rate/100)^(k−1)`, because escalation is applied only after
each year's record is produced; the year-k record's rental income is that
escalated rent net of vacancy, annualized. -/
theorem c6_year_rent_escalation (inp : ProjectionInput) :
    escalatedRent inp 1 = inp.monthly_rent ∧
    ∀ k, 1 ≤ k → k ≤ inp.holding_period →
      ((generate_cash_flow_projection inp).2[k - 1]?).map YearRecord.rentalIncome =
        some (escalatedRent inp k * (1 - inp.vacancy_rate / 100) * 12) := by
  constructor
  · simp [escalatedRent]
  · intro k hk1 hk2
    obtain ⟨j, rfl⟩ : ∃ j, k = j + 1 := ⟨k - 1, by omega⟩
    simp only [generate_cash_flow_projection, Nat.add_sub_cancel]
    rw [projRows_snd_getElem inp _ _ _ inp.holding_period j 1 inp.monthly_rent _ (by omega)]
    simp [escalatedRent]

/-- Claim C6 witness: the theorem applied to the sample input at year 2,
whose rental income uses the once-escalated rent. -/
theorem c6_year_rent_escalation_witness :
    (1 ≤ 2 ∧ 2 ≤ sampleInput.holding_period) ∧
    ((generate_cash_flow_projection sampleInput).2[2 - 1]?).map YearRecord.rentalIncome =
      some (escalatedRent sampleInput 2 * (1 - sampleInput.vacancy_rate / 100) * 12) :=
  ⟨⟨by decide, by decide⟩,
    (c6_year_rent_escalation sampleInput).2 2 (by decide) (by decide)⟩

/-- Claim C9: the cumulative cash flow recorded in year record k equals
the sum of `cash_flows[0..k]` inclusive — it includes the negative
initial down-payment outlay at index 0, because line 172 sums the whole
`cash_flows` list which starts with `-down_payment`. -/
theorem c9_cumulative_cash_flow (inp : ProjectionInput) (k : ℕ)
    (hk1 : 1 ≤ k) (hk2 : k ≤ inp.holding_period) :
    ((generate_cash_flow_projection inp).2[k - 1]?).map YearRecord.cumulativeCashFlow =
      some (((generate_cash_flow_projection inp).1.take (k + 1)).sum) := by
  obtain ⟨j, rfl⟩ : ∃ j, k = j + 1 := ⟨k - 1, by omega⟩
  simp only [generate_cash_flow_projection, Nat.add_sub_cancel]
  rw [projRows_snd_getElem inp _ _ _ inp.holding_period j 1 inp.monthly_rent _ (by omega)]
  simp [List.take_succ_cons]

/-- Claim C9 witness: the theorem applied to the sample input at year 2. -/
theorem c9_cumulative_cash_flow_witness :
    (1 ≤ 2 ∧ 2 ≤ sampleInput.holding_period) ∧
    ((generate_cash_flow_projection sampleInput).2[2 - 1]?).map YearRecord.cumulativeCashFlow =
      some (((generate_cash_flow_projection sampleInput).1.take (2 + 1)).sum) :=
  ⟨⟨by decide, by decide⟩,
    c9_cumulative_cash_flow sampleInput 2 (by decide) (by decide)⟩

/-- Claim C2 (counterexample): on `irrCycleFlows` the Newton-Raphson
iteration cycles exactly between rates 1/10 and −1/2, so it runs all
1000 iterations — at every examined iterate `|npv| ≥ 6912` so the
convergence guard never fires, and the derivative is never zero — yet
the IRR calculation does not return 0.0: line 70 returns the final rate
(1/10, since 1000 is even), which `calculate_irr` multiplies by 100,
giving 10.  The cycle is bounded and superattracting, so the float
execution of the source also completes all 1000 iterations without any
arithmetic error and returns ≈ 10.0, not 0.0. -/
theorem c2_nonconvergence_counterexample :
    (∀ k, k < 1000 →
      ¬|npvAt (newtonIterate irrCycleFlows k (1 / 10)) irrCycleFlows| < 1 / 100 ∧
      npvDeriv (newtonIterate irrCycleFlows k (1 / 10)) irrCycleFlows ≠ 0) ∧
    calculate_irr irrCycleFlows = 10 ∧ (10 : ℚ) ≠ 0 := by
  refine ⟨fun k _ => cycle_iterate_conditions k, ?_, by norm_num⟩
  rw [calculate_irr, calculate_irr_manual,
    irrLoop_eq_newtonIterate irrCycleFlows 1000 (1 / 10)
      (fun k _ => cycle_iterate_conditions k),
    show (1000 : ℕ) = 2 * 500 by norm_num, newtonIterate_cycle_even]
  norm_num

/-- Claim C2 (amended): when the Newton-Raphson iteration completes all
1000 iterations with the convergence guard `|npv| < 0.01` never firing
and the derivative never zero, the IRR calculation returns the 1000-th
Newton iterate times 100 — the final `rate` of line 70, not 0.0; and
whenever the derivative is 0 (and the convergence guard does not fire)
the loop stops immediately, returning the current rate. -/
theorem c2_nonconvergence_amended (cash_flows : List ℚ)
    (h : ∀ k, k < 1000 → ¬|npvAt (newtonIterate cash_flows k (1 / 10)) cash_flows| < 1 / 100 ∧
      npvDeriv (newtonIterate cash_flows k (1 / 10)) cash_flows ≠ 0) :
    calculate_irr cash_flows = newtonIterate cash_flows 1000 (1 / 10) * 100 ∧
    ∀ (n : ℕ) (r : ℚ), ¬|npvAt r cash_flows| < 1 / 100 → npvDeriv r cash_flows = 0 →
      irrLoop cash_flows (n + 1) r = r := by
  constructor
  · rw [calculate_irr, calculate_irr_manual,
      irrLoop_eq_newtonIterate cash_flows 1000 (1 / 10) h]
  · intro n r h1 h2
    simp only [irrLoop]
    rw [if_neg h1, if_pos h2]

/-- Claim C2 amended witness: the theorem applied to `irrCycleFlows`,
whose run never meets either stopping guard; the hypothesis is
discharged by the exact two-point Newton cycle through 1/10 and −1/2. -/
theorem c2_nonconvergence_amended_witness :
    (∀ k, k < 1000 →
      ¬|npvAt (newtonIterate irrCycleFlows k (1 / 10)) irrCycleFlows| < 1 / 100 ∧
      npvDeriv (newtonIterate irrCycleFlows k (1 / 10)) irrCycleFlows ≠ 0) ∧
    (calculate_irr irrCycleFlows = newtonIterate irrCycleFlows 1000 (1 / 10) * 100 ∧
    ∀ (n : ℕ) (r : ℚ), ¬|npvAt r irrCycleFlows| < 1 / 100 → npvDeriv r irrCycleFlows = 0 →
      irrLoop irrCycleFlows (n + 1) r = r) :=
  ⟨fun k _ => cycle_iterate_conditions k,
    c2_nonconvergence_amended irrCycleFlows (fun k _ => cycle_iterate_conditions k)⟩

end RealEstate
